import Mathlib

/-!
Shallow embedding of `src/index.ts` of the stale-while-revalidate cache
(`createStaleWhileRevalidateCache` and its inner `staleWhileRevalidate` /
`revalidate` functions), together with theorems settling the specification
claims about it.

Modelling choices, all taken from the source:

* Storage is an association list of string keys to string raw values
  (`storage.getItem` / `storage.setItem`).
* JavaScript values that can flow through `deserialize` / the producer are
  modelled by `JSVal`, with JavaScript truthiness (`if (cachedValue)`).
* `Number(cachedTime)` on a `string | null` is modelled by `jsNumber`:
  `Number(null) = 0`, `Number("") = 0`, decimal strings parse, anything else
  is `NaN`, modelled as `none`.  The age `now - Number(cachedTime)` is an
  `Option Int` where `none` is `NaN`; the two comparisons the code performs
  on it (`>` and `>=`) are false on `NaN`, exactly as in JavaScript.
* The cooperative async semantics is made explicit.  A `get()` call is run
  to a `GetResult` holding the value the returned promise settles with,
  the machine state `atSettle` (the instant that promise settles), and the
  machine state `final` after any background revalidation has finished and
  every issued `setItem` has completed.  The two `storage.setItem` calls in
  `revalidate` are issued without `await` (see the source comment
  "Intentionally persisting asynchronously and not blocking"), so they are
  recorded in a `pending` list when issued and only applied to the store
  when the machine is `flush`ed, i.e. after the settlement of the promise
  that issued them.
* Calling the `async function revalidate` runs its body synchronously up to
  `await fn()`: the `revalidate` event is emitted and the producer invoked
  at call time (`revalidateStart`); the rest of the body
  (`revalidateFinish`) runs when the producer's promise settles.
* The producer `fn` is modelled by its settlement, an `Except String JSVal`
  (rejection reason or resolved value); `producerCalls` counts its
  invocations.
-/

/-- A JavaScript value, as far as the cache engine inspects one. -/
inductive JSVal where
  | vNull : JSVal
  | vBool : Bool → JSVal
  | vNum : Int → JSVal
  | vStr : String → JSVal
deriving DecidableEq, Repr

/-- JavaScript truthiness, used by the source's `if (cachedValue)` check. -/
def truthy : JSVal → Bool
  | .vNull => false
  | .vBool b => b
  | .vNum n => decide (n ≠ 0)
  | .vStr s => decide (s ≠ "")

/-- The storage collaborator's state: keys to raw string values. -/
abbrev Store := List (String × String)

/-- Models `storage.getItem`: first binding wins (the newest write is
consed on by `setStore`). -/
def getStore : Store → String → Option String
  | [], _ => none
  | (k, v) :: rest, q => if k = q then some v else getStore rest q

/-- Models `storage.setItem`: record the new binding, shadowing any older
one. -/
def setStore (st : Store) (k v : String) : Store := (k, v) :: st

/-- Accumulate decimal digits; any non-digit character means `NaN`. -/
def parseNatAux : Nat → List Char → Option Nat
  | acc, [] => some acc
  | acc, c :: cs =>
      if c.isDigit then parseNatAux (acc * 10 + (c.toNat - 48)) cs else none

/-- JavaScript `Number(s)` for a string, restricted to the shapes the
engine ever stores or compares: `Number("") = 0`, an optionally-signed
decimal integer string parses, and any other string is `NaN` (modelled as
`none`).  (JS also accepts fractional/exponent/hex forms; the engine only
ever writes `Date.now().toString()`, an unsigned decimal integer.) -/
def jsStrToInt (s : String) : Option Int :=
  match s.data with
  | [] => some 0
  | '-' :: cs =>
      if cs = [] then none else (parseNatAux 0 cs).map (fun n => -(n : Int))
  | cs => (parseNatAux 0 cs).map (fun n => (n : Int))

/-- JavaScript `Number(x)` for the `string | null` read back for the time
key: `Number(null) = 0`, otherwise parse the string. -/
def jsNumber : Option String → Option Int
  | none => some 0
  | some s => jsStrToInt s

/-- Comparison `a > b` where `a` may be `NaN` (`none`): `NaN > b` is false in JS. -/
def ageGt : Option Int → Int → Bool
  | none, _ => false
  | some a, b => decide (b < a)

/-- Comparison `a >= b` where `a` may be `NaN` (`none`): `NaN >= b` is false in JS. -/
def ageGe : Option Int → Int → Bool
  | none, _ => false
  | some a, b => decide (b ≤ a)

/-- The events emitted through the emitter, with the payload fields the
claims talk about (the `cacheKey`/`fn` payload fields carry no information
beyond the call's own arguments and are omitted). -/
inductive Event where
  | invoke : Event
  | cacheHit : JSVal → Event
  | cacheExpired : Option Int → Option String → JSVal → Int → Event
  | cacheMiss : Event
  | revalidate : Event
  | revalidateFailed : String → Event
deriving DecidableEq, Repr

def Event.isHit : Event → Bool
  | .cacheHit _ => true
  | _ => false

def Event.isMiss : Event → Bool
  | .cacheMiss => true
  | _ => false

/-- The machine state threaded through a `get()` call:
the storage contents, the `setItem` calls issued but not yet completed
(`pending`), a permanent log of every issued write (`writes`), the trace of
emitted events, and how many times the producer has been invoked. -/
structure MState where
  store : Store
  pending : List (String × String)
  writes : List (String × String)
  events : List Event
  producerCalls : Nat
deriving DecidableEq, Repr

/-- A fresh machine over a given store: nothing pending, nothing emitted. -/
def mkState (st : Store) : MState :=
  { store := st, pending := [], writes := [], events := [], producerCalls := 0 }

/-- Models `emitter.emit`: synchronous, appends to the trace. -/
def emit (s : MState) (e : Event) : MState :=
  { s with events := s.events ++ [e] }

/-- The synchronous prefix of calling `revalidate()`: the body of the
`async function` runs up to `await fn()`, so the `revalidate` event is
emitted and the producer is invoked at call time. -/
def revalidateStart (s : MState) : MState :=
  { s with events := s.events ++ [Event.revalidate],
           producerCalls := s.producerCalls + 1 }

/-- The continuation of `revalidate()` once the producer's promise settles
(`fn` is its settlement).  On success the two `storage.setItem` calls are
issued — value under `key`, then the timestamp string under `timeKey` —
without being awaited, so they are appended to `pending` (and logged in
`writes`); on failure `revalidateFailed` is emitted and the error
re-thrown to the caller of `revalidate()`. -/
def revalidateFinish (ser : JSVal → String) (key timeKey : String)
    (nowW : Int) (fn : Except String JSVal) (s : MState) :
    Except String JSVal × MState :=
  match fn with
  | .ok v =>
      let ws := [(key, ser v), (timeKey, toString nowW)]
      (.ok v, { s with pending := s.pending ++ ws, writes := s.writes ++ ws })
  | .error e =>
      (.error e, { s with events := s.events ++ [Event.revalidateFailed e] })

/-- Completion of the issued-but-unawaited `setItem` calls: apply every
pending write to the store, in issue order. -/
def flush (s : MState) : MState :=
  { s with store := s.pending.foldl (fun st kv => setStore st kv.1 kv.2) s.store,
           pending := [] }

/-- The first argument of a call: a string or a zero-argument key function. -/
inductive CacheKey where
  | str : String → CacheKey
  | keyFn : (Unit → String) → CacheKey

/-- Models `isFunction(cacheKey) ? String(cacheKey()) : String(cacheKey)`. -/
def resolveKey : CacheKey → String
  | .str s => s
  | .keyFn f => f ()

/-- The configuration the engine destructures out of `parseConfig`. -/
structure SWRConfig where
  minTimeToStale : Int
  maxTimeToLive : Int
  serialize : JSVal → String
  deserialize : Option String → JSVal

/-- The outcome of one `get()` call: what the returned promise settles
with, the machine state at the instant it settles, and the machine state
after the background revalidation (if any) has run and all issued writes
have completed. -/
structure GetResult where
  settled : Except String JSVal
  atSettle : MState
  final : MState
deriving Repr

/-- The body of `staleWhileRevalidate` from `src/index.ts`, lines 38–101:
emit `invoke`; resolve the key; read value and time from storage
(awaited); deserialize; compute the age; if the age exceeds
`maxTimeToLive` emit `cacheExpired` and null the value; on a truthy value
emit `cacheHit`, fire `revalidate().catch(() => {})` in the background
when the age is at least `minTimeToStale`, and settle with the cached
value; otherwise emit `cacheMiss` and settle with `revalidate()`'s own
result.  `now` is `Date.now()` at classification time and `nowW` is
`Date.now()` at write time inside `revalidate`. -/
def swrGet (cfg : SWRConfig) (cacheKey : CacheKey) (fn : Except String JSVal)
    (now nowW : Int) (init : MState) : GetResult :=
  let s0 := emit init .invoke
  let key := resolveKey cacheKey
  let timeKey := key ++ "_time"
  let cachedRaw := getStore s0.store key
  let cachedTime := getStore s0.store timeKey
  let cachedValue0 := cfg.deserialize cachedRaw
  let cachedAge : Option Int := (jsNumber cachedTime).map (fun t => now - t)
  let expired := ageGt cachedAge cfg.maxTimeToLive
  let s1 := if expired then
      emit s0 (.cacheExpired cachedAge cachedTime cachedValue0 cfg.maxTimeToLive)
    else s0
  let cachedValue := if expired then JSVal.vNull else cachedValue0
  if truthy cachedValue then
    let s2 := emit s1 (.cacheHit cachedValue)
    if ageGe cachedAge cfg.minTimeToStale then
      -- background revalidation: its synchronous prefix runs before the
      -- settle, its continuation after; its error is caught by the no-op
      -- handler and discarded
      let s3 := revalidateStart s2
      let s4 := (revalidateFinish cfg.serialize key timeKey nowW fn s3).2
      { settled := .ok cachedValue, atSettle := s3, final := flush s4 }
    else
      { settled := .ok cachedValue, atSettle := s2, final := flush s2 }
  else
    let s2 := emit s1 .cacheMiss
    let s3 := revalidateStart s2
    let rs := revalidateFinish cfg.serialize key timeKey nowW fn s3
    { settled := rs.1, atSettle := rs.2, final := flush rs.2 }

/-- The default codec used for concrete runs: strings round-trip, absent
raw input maps to the falsy sentinel `null` (spec §6's requirement on the
serialization collaborator). -/
def defaultDeserialize : Option String → JSVal
  | none => .vNull
  | some s => .vStr s

/-- Serialization for concrete runs: the identity on strings. -/
def defaultSerialize : JSVal → String
  | .vStr s => s
  | .vNum n => toString n
  | .vBool b => toString b
  | .vNull => "null"

/-- A concrete configuration for witnesses and counterexamples. -/
def cfg1 : SWRConfig :=
  { minTimeToStale := 10, maxTimeToLive := 100,
    serialize := defaultSerialize, deserialize := defaultDeserialize }

/-- One `get()` call run from a fresh machine over the given store. -/
def swrRun (cfg : SWRConfig) (cacheKey : CacheKey) (fn : Except String JSVal)
    (now nowW : Int) (st : Store) : GetResult :=
  swrGet cfg cacheKey fn now nowW (mkState st)

/-- The condition under which `staleWhileRevalidate` takes the miss
(synchronous `revalidate()`) path: the deserialized value — nulled first
when the entry is expired — is falsy.  Both subconditions are lifted
verbatim from the source's classification. -/
def missPath (cfg : SWRConfig) (st : Store) (key : String) (now : Int) : Bool :=
  let cachedAge := (jsNumber (getStore st (key ++ "_time"))).map (fun t => now - t)
  !truthy (if ageGt cachedAge cfg.maxTimeToLive then JSVal.vNull
           else cfg.deserialize (getStore st key))

instance : DecidableEq (Except String JSVal) := fun a b =>
  match a, b with
  | .ok x, .ok y =>
      match decEq x y with
      | .isTrue h => .isTrue (congrArg Except.ok h)
      | .isFalse h => .isFalse (fun hh => h (Except.ok.inj hh))
  | .error x, .error y =>
      match decEq x y with
      | .isTrue h => .isTrue (congrArg Except.error h)
      | .isFalse h => .isFalse (fun hh => h (Except.error.inj hh))
  | .ok _, .error _ => .isFalse (fun hh => Except.noConfusion hh)
  | .error _, .ok _ => .isFalse (fun hh => Except.noConfusion hh)

theorem key_ne_timeKey (s : String) : s ≠ s ++ "_time" := by
  intro h
  have hlen := congrArg String.length h
  rw [String.length_append] at hlen
  have h5 : ("_time" : String).length = 5 := rfl
  omega

theorem getStore_setStore_self (st : Store) (k v : String) :
    getStore (setStore st k v) k = some v := by
  simp [getStore, setStore]

theorem getStore_setStore_ne (st : Store) (k q v : String) (h : k ≠ q) :
    getStore (setStore st k v) q = getStore st q := by
  simp [getStore, setStore, h]

theorem jsNumber_none : jsNumber none = some 0 := rfl

theorem truthy_vNull : truthy JSVal.vNull = false := rfl

theorem ageGt_none (b : Int) : ageGt none b = false := rfl

theorem ageGe_none (b : Int) : ageGe none b = false := rfl

/-- C1, counterexample: on a cache miss (`cfg1`, empty store, key `"k"`,
producer resolving `"v1"`) the call settles successfully, yet at the
moment the returned promise settles neither the value nor the timestamp
is in storage — the two `setItem` calls were issued but not awaited, so
the claim that both writes "have been awaited ... before the returned
promise settles" is false. -/
theorem C1_counterexample :
    (swrRun cfg1 (.str "k") (.ok (.vStr "v1")) 5 7 []).settled
      = .ok (.vStr "v1") ∧
    getStore (swrRun cfg1 (.str "k") (.ok (.vStr "v1")) 5 7 []).atSettle.store "k"
      = none ∧
    getStore (swrRun cfg1 (.str "k") (.ok (.vStr "v1")) 5 7 []).atSettle.store "k_time"
      = none := by
  decide

/-- C1, amended: on the cache-miss (synchronous) path, when `get()`
resolves successfully, both storage writes of `revalidate()` have been
*initiated* before the returned promise settles — the serialized producer
result under the resolved key first, then the timestamp string under the
time key — but they are not awaited: the promise can settle with the
store still unchanged, and only once the issued writes complete does
storage hold both entries. -/
theorem C1_miss_writes_initiated_not_awaited (cfg : SWRConfig) (key : String)
    (v : JSVal) (now nowW : Int) (st : Store)
    (hmiss : missPath cfg st key now = true) :
    (swrRun cfg (.str key) (.ok v) now nowW st).settled = .ok v ∧
    (swrRun cfg (.str key) (.ok v) now nowW st).atSettle.store = st ∧
    (swrRun cfg (.str key) (.ok v) now nowW st).atSettle.pending =
      [(key, cfg.serialize v), (key ++ "_time", toString nowW)] ∧
    getStore (swrRun cfg (.str key) (.ok v) now nowW st).final.store key
      = some (cfg.serialize v) ∧
    getStore (swrRun cfg (.str key) (.ok v) now nowW st).final.store (key ++ "_time")
      = some (toString nowW) := by
  cases hexp : ageGt (Option.map (fun t => now - t)
      (jsNumber (getStore st (key ++ "_time")))) cfg.maxTimeToLive
  · simp [missPath, hexp] at hmiss
    simp [swrRun, swrGet, mkState, emit, resolveKey, flush, revalidateStart,
          revalidateFinish, hexp, hmiss, getStore_setStore_self,
          getStore_setStore_ne]
    rw [getStore_setStore_ne _ _ _ _ (Ne.symm (key_ne_timeKey key)),
        getStore_setStore_self]
  · simp [swrRun, swrGet, mkState, emit, resolveKey, flush, revalidateStart,
          revalidateFinish, hexp, truthy_vNull, getStore_setStore_self,
          getStore_setStore_ne]
    rw [getStore_setStore_ne _ _ _ _ (Ne.symm (key_ne_timeKey key)),
        getStore_setStore_self]

/-- C1, witness: the amended theorem at the counterexample's input. -/
theorem C1_witness :
    (swrRun cfg1 (.str "k") (.ok (.vStr "v1")) 5 7 []).settled
      = .ok (.vStr "v1") ∧
    (swrRun cfg1 (.str "k") (.ok (.vStr "v1")) 5 7 []).atSettle.store = [] ∧
    (swrRun cfg1 (.str "k") (.ok (.vStr "v1")) 5 7 []).atSettle.pending =
      [("k", cfg1.serialize (.vStr "v1")), ("k" ++ "_time", toString (7 : Int))] ∧
    getStore (swrRun cfg1 (.str "k") (.ok (.vStr "v1")) 5 7 []).final.store "k"
      = some (cfg1.serialize (.vStr "v1")) ∧
    getStore (swrRun cfg1 (.str "k") (.ok (.vStr "v1")) 5 7 []).final.store ("k" ++ "_time")
      = some (toString (7 : Int)) :=
  C1_miss_writes_initiated_not_awaited cfg1 "k" (.vStr "v1") 5 7 [] (by decide)

/-- C2, counterexample: with a present, truthy cached value and a stored
timestamp `"abc"` that does not parse (`Number("abc")` is `NaN`), the
call does *not* route to the miss/synchronous-revalidate path: it emits
`cacheHit`, returns the cached value, and the producer is never invoked
(`producerCalls = 0`), contradicting the claim. -/
theorem C2_counterexample :
    (swrRun cfg1 (.str "k") (.ok (.vStr "new")) 50 60
        [("k", "v"), ("k_time", "abc")]).final.producerCalls = 0 ∧
    (swrRun cfg1 (.str "k") (.ok (.vStr "new")) 50 60
        [("k", "v"), ("k_time", "abc")]).final.events =
      [.invoke, .cacheHit (.vStr "v")] ∧
    (swrRun cfg1 (.str "k") (.ok (.vStr "new")) 50 60
        [("k", "v"), ("k_time", "abc")]).settled = .ok (.vStr "v") := by
  decide

/-- C2, amended: (a) when the stored value is present and truthy and the
stored timestamp does not parse to a number (computed age is `NaN`, whose
comparisons are all false), `get()` routes to the *plain cache-hit* path:
it emits exactly `invoke`, `cacheHit`, returns the cached value, never
invokes the producer and leaves storage unchanged — no synchronous or
background revalidation at all; (b) when the timestamp is *absent*,
`Number(null)` coerces to `0` so the age equals `now`, and the call
routes to the expired/miss path (producer invoked synchronously, no
`cacheHit`) exactly when `now > maxTimeToLive`. -/
theorem C2_invalid_timestamp_classification :
    (∀ (cfg : SWRConfig) (key raw ts : String) (now nowW : Int)
       (fn : Except String JSVal) (st : Store),
       getStore st key = some raw →
       truthy (cfg.deserialize (some raw)) = true →
       getStore st (key ++ "_time") = some ts →
       jsNumber (some ts) = none →
       (swrRun cfg (.str key) fn now nowW st).settled
         = .ok (cfg.deserialize (some raw)) ∧
       (swrRun cfg (.str key) fn now nowW st).final.events =
         [.invoke, .cacheHit (cfg.deserialize (some raw))] ∧
       (swrRun cfg (.str key) fn now nowW st).final.producerCalls = 0 ∧
       (swrRun cfg (.str key) fn now nowW st).final.store = st) ∧
    (∀ (cfg : SWRConfig) (key raw : String) (now nowW : Int)
       (fn : Except String JSVal) (st : Store),
       getStore st key = some raw →
       getStore st (key ++ "_time") = none →
       cfg.maxTimeToLive < now →
       (swrRun cfg (.str key) fn now nowW st).final.events.any Event.isMiss = true ∧
       (swrRun cfg (.str key) fn now nowW st).final.events.any Event.isHit = false ∧
       (swrRun cfg (.str key) fn now nowW st).atSettle.producerCalls = 1) := by
  constructor
  · intro cfg key raw ts now nowW fn st hraw htruthy hts hnum
    simp [swrRun, swrGet, mkState, emit, resolveKey, flush, revalidateStart,
          revalidateFinish, hraw, hts, hnum, htruthy, ageGt_none, ageGe_none]
  · intro cfg key raw now nowW fn st hraw hts hnow
    have hgt : ageGt (some now) cfg.maxTimeToLive = true := by
      simp [ageGt]; omega
    cases fn <;>
      simp [swrRun, swrGet, mkState, emit, resolveKey, flush, revalidateStart,
            revalidateFinish, Event.isHit, Event.isMiss, truthy_vNull,
            hraw, hts, jsNumber_none, hgt]

/-- C2, witness: part (a) of the amended theorem at the counterexample's
input. -/
theorem C2_witness :
    (swrRun cfg1 (.str "k") (.ok (.vStr "new")) 50 60
        [("k", "v"), ("k_time", "abc")]).final.producerCalls = 0 ∧
    (swrRun cfg1 (.str "k") (.ok (.vStr "new")) 50 60
        [("k", "v"), ("k_time", "abc")]).final.events =
      [.invoke, .cacheHit (cfg1.deserialize (some "v"))] :=
  have h := C2_invalid_timestamp_classification.1 cfg1 "k" "v" "abc" 50 60
    (.ok (.vStr "new")) [("k", "v"), ("k_time", "abc")]
    (by decide) (by decide) (by decide) (by decide)
  ⟨h.2.2.1, h.2.1⟩

/-- C3, counterexample: on a key with no existing entry but with
`now > maxTimeToLive` (with a real epoch-milliseconds clock and a finite
`maxTimeToLive` this always holds), the absent timestamp coerces to `0`,
the computed age `now` exceeds `maxTimeToLive`, and a `cacheExpired`
event is emitted before `cacheMiss` — so `get()` does not emit *exactly*
`invoke`, `cacheMiss`, `revalidate`. -/
theorem C3_counterexample :
    (swrRun cfg1 (.str "k") (.ok (.vStr "v1")) 500 507 []).final.events ≠
      [.invoke, .cacheMiss, .revalidate] ∧
    (swrRun cfg1 (.str "k") (.ok (.vStr "v1")) 500 507 []).final.events =
      [.invoke, .cacheExpired (some 500) none .vNull 100, .cacheMiss,
       .revalidate] := by
  decide

/-- C3, amended: for every key with no existing entry (both storage slots
absent) and a producer that succeeds, `get()` returns the producer's
result and writes both the serialized value and the timestamp to storage;
it emits exactly `invoke`, `cacheMiss`, `revalidate` in that order when
`now ≤ maxTimeToLive`, but when `now > maxTimeToLive` (the absent
timestamp coerces to age `= now`) a `cacheExpired` event is additionally
emitted between `invoke` and `cacheMiss`. -/
theorem C3_no_entry_events_and_writes (cfg : SWRConfig) (key : String)
    (v : JSVal) (now nowW : Int) (st : Store)
    (hraw : getStore st key = none)
    (hts : getStore st (key ++ "_time") = none)
    (hdeser : truthy (cfg.deserialize none) = false) :
    (swrRun cfg (.str key) (.ok v) now nowW st).settled = .ok v ∧
    (swrRun cfg (.str key) (.ok v) now nowW st).final.events =
      (if cfg.maxTimeToLive < now then
        [.invoke,
         .cacheExpired (some now) none (cfg.deserialize none) cfg.maxTimeToLive,
         .cacheMiss, .revalidate]
       else [.invoke, .cacheMiss, .revalidate]) ∧
    getStore (swrRun cfg (.str key) (.ok v) now nowW st).final.store key
      = some (cfg.serialize v) ∧
    getStore (swrRun cfg (.str key) (.ok v) now nowW st).final.store (key ++ "_time")
      = some (toString nowW) := by
  rcases le_or_lt now cfg.maxTimeToLive with hle | hlt
  · have hgt : ageGt (some now) cfg.maxTimeToLive = false := by
      simp [ageGt]; omega
    simp [swrRun, swrGet, mkState, emit, resolveKey, flush, revalidateStart,
          revalidateFinish, hraw, hts, jsNumber_none, hgt, hdeser,
          getStore_setStore_self, not_lt.mpr hle]
    rw [getStore_setStore_ne _ _ _ _ (Ne.symm (key_ne_timeKey key)),
        getStore_setStore_self]
  · have hgt : ageGt (some now) cfg.maxTimeToLive = true := by
      simp [ageGt]; omega
    simp [swrRun, swrGet, mkState, emit, resolveKey, flush, revalidateStart,
          revalidateFinish, hraw, hts, jsNumber_none, hgt, truthy_vNull, hlt,
          getStore_setStore_self]
    rw [getStore_setStore_ne _ _ _ _ (Ne.symm (key_ne_timeKey key)),
        getStore_setStore_self]

/-- C3, witness: the amended theorem on an empty store with
`now = 5 ≤ maxTimeToLive`, the branch in which the original event list
holds. -/
theorem C3_witness :
    (swrRun cfg1 (.str "k") (.ok (.vStr "v1")) 5 7 []).settled
      = .ok (.vStr "v1") ∧
    (swrRun cfg1 (.str "k") (.ok (.vStr "v1")) 5 7 []).final.events =
      (if cfg1.maxTimeToLive < 5 then
        [.invoke,
         .cacheExpired (some 5) none (cfg1.deserialize none) cfg1.maxTimeToLive,
         .cacheMiss, .revalidate]
       else [.invoke, .cacheMiss, .revalidate]) ∧
    getStore (swrRun cfg1 (.str "k") (.ok (.vStr "v1")) 5 7 []).final.store "k"
      = some (cfg1.serialize (.vStr "v1")) ∧
    getStore (swrRun cfg1 (.str "k") (.ok (.vStr "v1")) 5 7 []).final.store ("k" ++ "_time")
      = some (toString (7 : Int)) :=
  C3_no_entry_events_and_writes cfg1 "k" (.vStr "v1") 5 7 []
    (by decide) (by decide) (by decide)

/-- C4, confirmed: for a truthy cached value of parsed age
`now - t < minTimeToStale ≤ maxTimeToLive`, `get()` emits exactly
`invoke`, `cacheHit`, returns the cached (deserialized) value, never
invokes the producer, performs no storage write, and — since storage is
left unchanged — a repeated call on the resulting store is the very same
run. -/
theorem C4_fresh_hit_no_producer_no_write (cfg : SWRConfig)
    (key raw ts : String) (t now nowW : Int)
    (fn : Except String JSVal) (st : Store)
    (hraw : getStore st key = some raw)
    (htruthy : truthy (cfg.deserialize (some raw)) = true)
    (hts : getStore st (key ++ "_time") = some ts)
    (hnum : jsNumber (some ts) = some t)
    (hfresh : now - t < cfg.minTimeToStale)
    (hmono : cfg.minTimeToStale ≤ cfg.maxTimeToLive) :
    (swrRun cfg (.str key) fn now nowW st).settled
      = .ok (cfg.deserialize (some raw)) ∧
    (swrRun cfg (.str key) fn now nowW st).final.events =
      [.invoke, .cacheHit (cfg.deserialize (some raw))] ∧
    (swrRun cfg (.str key) fn now nowW st).final.producerCalls = 0 ∧
    (swrRun cfg (.str key) fn now nowW st).final.store = st ∧
    (swrRun cfg (.str key) fn now nowW st).final.writes = [] ∧
    swrRun cfg (.str key) fn now nowW (swrRun cfg (.str key) fn now nowW st).final.store
      = swrRun cfg (.str key) fn now nowW st := by
  have hgt : ageGt (some (now - t)) cfg.maxTimeToLive = false := by
    simp [ageGt]; omega
  have hge : ageGe (some (now - t)) cfg.minTimeToStale = false := by
    simp [ageGe]; omega
  simp [swrRun, swrGet, mkState, emit, resolveKey, flush, hraw, hts, hnum,
        hgt, hge, htruthy]

/-- C4, witness: a fresh entry of age `5` with `minTimeToStale = 10`. -/
theorem C4_witness :
    (swrRun cfg1 (.str "k") (.ok (.vStr "v2")) 105 107
        [("k", "v1"), ("k_time", "100")]).settled
      = .ok (cfg1.deserialize (some "v1")) ∧
    (swrRun cfg1 (.str "k") (.ok (.vStr "v2")) 105 107
        [("k", "v1"), ("k_time", "100")]).final.events =
      [.invoke, .cacheHit (cfg1.deserialize (some "v1"))] ∧
    (swrRun cfg1 (.str "k") (.ok (.vStr "v2")) 105 107
        [("k", "v1"), ("k_time", "100")]).final.producerCalls = 0 ∧
    (swrRun cfg1 (.str "k") (.ok (.vStr "v2")) 105 107
        [("k", "v1"), ("k_time", "100")]).final.store
      = [("k", "v1"), ("k_time", "100")] ∧
    (swrRun cfg1 (.str "k") (.ok (.vStr "v2")) 105 107
        [("k", "v1"), ("k_time", "100")]).final.writes = [] ∧
    swrRun cfg1 (.str "k") (.ok (.vStr "v2")) 105 107
        (swrRun cfg1 (.str "k") (.ok (.vStr "v2")) 105 107
          [("k", "v1"), ("k_time", "100")]).final.store
      = swrRun cfg1 (.str "k") (.ok (.vStr "v2")) 105 107
          [("k", "v1"), ("k_time", "100")] :=
  C4_fresh_hit_no_producer_no_write cfg1 "k" "v1" "100" 100 105 107
    (.ok (.vStr "v2")) [("k", "v1"), ("k_time", "100")]
    (by decide) (by decide) (by decide) (by decide) (by decide) (by decide)

/-- C5, confirmed: for a truthy cached value of parsed age
`minTimeToStale ≤ now - t ≤ maxTimeToLive`, `get()` emits `invoke` and
`cacheHit` (plus the `revalidate` event of the background task's
synchronous prefix), settles with the cached stale value while the store
is still untouched (revalidation not awaited), and the background
revalidation invokes the producer exactly once and rewrites both the
value and the timestamp in storage. -/
theorem C5_stale_hit_background_revalidation (cfg : SWRConfig)
    (key raw ts : String) (t now nowW : Int) (v : JSVal) (st : Store)
    (hraw : getStore st key = some raw)
    (htruthy : truthy (cfg.deserialize (some raw)) = true)
    (hts : getStore st (key ++ "_time") = some ts)
    (hnum : jsNumber (some ts) = some t)
    (hstale : cfg.minTimeToStale ≤ now - t)
    (hlive : now - t ≤ cfg.maxTimeToLive) :
    (swrRun cfg (.str key) (.ok v) now nowW st).settled
      = .ok (cfg.deserialize (some raw)) ∧
    (swrRun cfg (.str key) (.ok v) now nowW st).atSettle.events =
      [.invoke, .cacheHit (cfg.deserialize (some raw)), .revalidate] ∧
    (swrRun cfg (.str key) (.ok v) now nowW st).atSettle.store = st ∧
    (swrRun cfg (.str key) (.ok v) now nowW st).final.producerCalls = 1 ∧
    getStore (swrRun cfg (.str key) (.ok v) now nowW st).final.store key
      = some (cfg.serialize v) ∧
    getStore (swrRun cfg (.str key) (.ok v) now nowW st).final.store (key ++ "_time")
      = some (toString nowW) := by
  have hgt : ageGt (some (now - t)) cfg.maxTimeToLive = false := by
    simp [ageGt]; omega
  have hge : ageGe (some (now - t)) cfg.minTimeToStale = true := by
    simp [ageGe]; omega
  simp [swrRun, swrGet, mkState, emit, resolveKey, flush, revalidateStart,
        revalidateFinish, hraw, hts, hnum, hgt, hge, htruthy,
        getStore_setStore_self, getStore_setStore_ne,
        (key_ne_timeKey key)]
  rw [getStore_setStore_ne _ _ _ _ (Ne.symm (key_ne_timeKey key)),
      getStore_setStore_self]

/-- C5, witness: the spec §8 example — entry of age `50` with
`minTimeToStale = 10`, `maxTimeToLive = 100`; `"v1"` is returned and the
background revalidation writes `"v2"` and the new timestamp. -/
theorem C5_witness :
    (swrRun cfg1 (.str "k") (.ok (.vStr "v2")) 150 152
        [("k", "v1"), ("k_time", "100")]).settled
      = .ok (cfg1.deserialize (some "v1")) ∧
    (swrRun cfg1 (.str "k") (.ok (.vStr "v2")) 150 152
        [("k", "v1"), ("k_time", "100")]).atSettle.events =
      [.invoke, .cacheHit (cfg1.deserialize (some "v1")), .revalidate] ∧
    (swrRun cfg1 (.str "k") (.ok (.vStr "v2")) 150 152
        [("k", "v1"), ("k_time", "100")]).atSettle.store
      = [("k", "v1"), ("k_time", "100")] ∧
    (swrRun cfg1 (.str "k") (.ok (.vStr "v2")) 150 152
        [("k", "v1"), ("k_time", "100")]).final.producerCalls = 1 ∧
    getStore (swrRun cfg1 (.str "k") (.ok (.vStr "v2")) 150 152
        [("k", "v1"), ("k_time", "100")]).final.store "k"
      = some (cfg1.serialize (.vStr "v2")) ∧
    getStore (swrRun cfg1 (.str "k") (.ok (.vStr "v2")) 150 152
        [("k", "v1"), ("k_time", "100")]).final.store ("k" ++ "_time")
      = some (toString (152 : Int)) :=
  C5_stale_hit_background_revalidation cfg1 "k" "v1" "100" 100 150 152
    (.vStr "v2") [("k", "v1"), ("k_time", "100")]
    (by decide) (by decide) (by decide) (by decide) (by decide) (by decide)

/-- C6, confirmed: for a cached value of parsed age
`now - t > maxTimeToLive`, `get()` (with a successful producer) emits
exactly `invoke`, `cacheExpired`, `cacheMiss`, `revalidate` in that
order, discards the cached value, and behaves as on a key with no entry:
it settles with the same result, issues the same writes and invokes the
producer the same number of times as the run on an empty store. -/
theorem C6_expired_treated_as_miss (cfg : SWRConfig) (key raw ts : String)
    (t now nowW : Int) (fn : Except String JSVal) (st : Store)
    (hraw : getStore st key = some raw)
    (_htruthy : truthy (cfg.deserialize (some raw)) = true)
    (hts : getStore st (key ++ "_time") = some ts)
    (hnum : jsNumber (some ts) = some t)
    (hexpired : cfg.maxTimeToLive < now - t)
    (hdeser : truthy (cfg.deserialize none) = false) :
    (∀ v, fn = .ok v →
      (swrRun cfg (.str key) fn now nowW st).final.events =
        [.invoke,
         .cacheExpired (some (now - t)) (some ts) (cfg.deserialize (some raw))
           cfg.maxTimeToLive,
         .cacheMiss, .revalidate]) ∧
    (swrRun cfg (.str key) fn now nowW st).settled
      = (swrRun cfg (.str key) fn now nowW []).settled ∧
    (swrRun cfg (.str key) fn now nowW st).final.writes
      = (swrRun cfg (.str key) fn now nowW []).final.writes ∧
    (swrRun cfg (.str key) fn now nowW st).final.producerCalls
      = (swrRun cfg (.str key) fn now nowW []).final.producerCalls := by
  have hgt : ageGt (some (now - t)) cfg.maxTimeToLive = true := by
    simp [ageGt]; omega
  cases hgtS : ageGt (some now) cfg.maxTimeToLive <;> cases fn <;>
    simp [swrRun, swrGet, mkState, emit, resolveKey, flush, revalidateStart,
          revalidateFinish, getStore, jsNumber_none, truthy_vNull,
          hraw, hts, hnum, hgt, hdeser, hgtS]

/-- C6, witness: an entry of age `200` against `maxTimeToLive = 100`. -/
theorem C6_witness :
    (swrRun cfg1 (.str "k") (.ok (.vStr "v2")) 300 302
        [("k", "v1"), ("k_time", "100")]).final.events =
      [.invoke,
       .cacheExpired (some (300 - 100)) (some "100") (cfg1.deserialize (some "v1"))
         cfg1.maxTimeToLive,
       .cacheMiss, .revalidate] ∧
    (swrRun cfg1 (.str "k") (.ok (.vStr "v2")) 300 302
        [("k", "v1"), ("k_time", "100")]).settled
      = (swrRun cfg1 (.str "k") (.ok (.vStr "v2")) 300 302 []).settled :=
  have h := C6_expired_treated_as_miss cfg1 "k" "v1" "100" 100 300 302
    (.ok (.vStr "v2")) [("k", "v1"), ("k_time", "100")]
    (by decide) (by decide) (by decide) (by decide) (by decide) (by decide)
  ⟨h.1 (.vStr "v2") rfl, h.2.1⟩

/-- C7, confirmed: if the producer rejects on the cache-miss path,
`get()` rejects with exactly that error, `revalidateFailed` carrying the
error is emitted, and storage is not written (the store is unchanged and
no write was ever issued). -/
theorem C7_miss_producer_failure (cfg : SWRConfig) (key err : String)
    (now nowW : Int) (st : Store)
    (hmiss : missPath cfg st key now = true) :
    (swrRun cfg (.str key) (.error err) now nowW st).settled = .error err ∧
    Event.revalidateFailed err ∈
      (swrRun cfg (.str key) (.error err) now nowW st).final.events ∧
    (swrRun cfg (.str key) (.error err) now nowW st).final.store = st ∧
    (swrRun cfg (.str key) (.error err) now nowW st).final.writes = [] := by
  cases hexp : ageGt (Option.map (fun t => now - t)
      (jsNumber (getStore st (key ++ "_time")))) cfg.maxTimeToLive
  · simp [missPath, hexp] at hmiss
    simp [swrRun, swrGet, mkState, emit, resolveKey, flush, revalidateStart,
          revalidateFinish, hexp, hmiss]
  · simp [swrRun, swrGet, mkState, emit, resolveKey, flush, revalidateStart,
          revalidateFinish, hexp, truthy_vNull]

/-- C7, witness: a cold miss whose producer rejects with `"boom"`. -/
theorem C7_witness :
    (swrRun cfg1 (.str "k") (.error "boom") 5 7 []).settled = .error "boom" ∧
    Event.revalidateFailed "boom" ∈
      (swrRun cfg1 (.str "k") (.error "boom") 5 7 []).final.events ∧
    (swrRun cfg1 (.str "k") (.error "boom") 5 7 []).final.store = [] ∧
    (swrRun cfg1 (.str "k") (.error "boom") 5 7 []).final.writes = [] :=
  C7_miss_producer_failure cfg1 "k" "boom" 5 7 [] (by decide)

/-- C8, confirmed: if the producer rejects on the stale (background)
path, `get()` still settles with the previously cached stale value — the
rejection never reaches the caller, since the source attaches the no-op
handler `revalidate().catch(() => {})`, modelled by the stale branch
discarding the background result — `revalidateFailed` carrying the error
is emitted, and storage is not written. -/
theorem C8_stale_producer_failure (cfg : SWRConfig) (key raw ts err : String)
    (t now nowW : Int) (st : Store)
    (hraw : getStore st key = some raw)
    (htruthy : truthy (cfg.deserialize (some raw)) = true)
    (hts : getStore st (key ++ "_time") = some ts)
    (hnum : jsNumber (some ts) = some t)
    (hstale : cfg.minTimeToStale ≤ now - t)
    (hlive : now - t ≤ cfg.maxTimeToLive) :
    (swrRun cfg (.str key) (.error err) now nowW st).settled
      = .ok (cfg.deserialize (some raw)) ∧
    Event.revalidateFailed err ∈
      (swrRun cfg (.str key) (.error err) now nowW st).final.events ∧
    (swrRun cfg (.str key) (.error err) now nowW st).final.store = st ∧
    (swrRun cfg (.str key) (.error err) now nowW st).final.writes = [] := by
  have hgt : ageGt (some (now - t)) cfg.maxTimeToLive = false := by
    simp [ageGt]; omega
  have hge : ageGe (some (now - t)) cfg.minTimeToStale = true := by
    simp [ageGe]; omega
  simp [swrRun, swrGet, mkState, emit, resolveKey, flush, revalidateStart,
        revalidateFinish, hraw, hts, hnum, hgt, hge, htruthy]

/-- C8, witness: a stale entry whose background producer rejects. -/
theorem C8_witness :
    (swrRun cfg1 (.str "k") (.error "boom") 150 152
        [("k", "v1"), ("k_time", "100")]).settled
      = .ok (cfg1.deserialize (some "v1")) ∧
    Event.revalidateFailed "boom" ∈
      (swrRun cfg1 (.str "k") (.error "boom") 150 152
        [("k", "v1"), ("k_time", "100")]).final.events ∧
    (swrRun cfg1 (.str "k") (.error "boom") 150 152
        [("k", "v1"), ("k_time", "100")]).final.store
      = [("k", "v1"), ("k_time", "100")] ∧
    (swrRun cfg1 (.str "k") (.error "boom") 150 152
        [("k", "v1"), ("k_time", "100")]).final.writes = [] :=
  C8_stale_producer_failure cfg1 "k" "v1" "100" "boom" 100 150 152
    [("k", "v1"), ("k_time", "100")]
    (by decide) (by decide) (by decide) (by decide) (by decide) (by decide)

/-- C9, confirmed: when the stored value deserializes to a falsy value
and the entry is not expired, the call is classified as a miss: it emits
exactly `invoke`, `cacheMiss`, `revalidate` (never `cacheHit`, and no
`cacheExpired`), invokes the producer synchronously before settling, and
settles with the producer's own outcome — exactly as if the entry were
absent. -/
theorem C9_falsy_value_is_miss (cfg : SWRConfig) (key raw : String)
    (now nowW : Int) (fn : Except String JSVal) (st : Store)
    (hraw : getStore st key = some raw)
    (hfalsy : truthy (cfg.deserialize (some raw)) = false)
    (hnotexp : ageGt ((jsNumber (getStore st (key ++ "_time"))).map (fun t => now - t))
        cfg.maxTimeToLive = false) :
    (swrRun cfg (.str key) fn now nowW st).final.events =
      [.invoke, .cacheMiss, .revalidate] ++
        (match fn with | .ok _ => [] | .error e => [Event.revalidateFailed e]) ∧
    (swrRun cfg (.str key) fn now nowW st).atSettle.producerCalls = 1 ∧
    (swrRun cfg (.str key) fn now nowW st).settled = fn := by
  cases fn <;>
    simp [swrRun, swrGet, mkState, emit, resolveKey, flush, revalidateStart,
          revalidateFinish, hraw, hfalsy, hnotexp]

/-- C9, witness: an empty-string cached value of age `5` (not expired) is
treated as a miss. -/
theorem C9_witness :
    (swrRun cfg1 (.str "k") (.ok (.vStr "v2")) 50 52
        [("k", ""), ("k_time", "45")]).final.events =
      [.invoke, .cacheMiss, .revalidate] ∧
    (swrRun cfg1 (.str "k") (.ok (.vStr "v2")) 50 52
        [("k", ""), ("k_time", "45")]).atSettle.producerCalls = 1 ∧
    (swrRun cfg1 (.str "k") (.ok (.vStr "v2")) 50 52
        [("k", ""), ("k_time", "45")]).settled = .ok (.vStr "v2") :=
  C9_falsy_value_is_miss cfg1 "k" "" 50 52 (.ok (.vStr "v2"))
    [("k", ""), ("k_time", "45")] (by decide) (by decide) (by decide)

/-- C10, confirmed (for every configuration, key, producer outcome,
clock and store): a single `get()` call issues either no write at all or
exactly the two writes to the resolved key and its `_time` key, in that
order (value first, then timestamp) and only when the producer resolved
successfully — no other storage slot is ever written — and `cacheHit`
and `cacheMiss` are never both emitted in the same invocation. -/
theorem C10_frame_at_most_two_writes (cfg : SWRConfig) (ck : CacheKey)
    (fn : Except String JSVal) (now nowW : Int) (st : Store) :
    ((swrRun cfg ck fn now nowW st).final.writes = [] ∨
      ∃ v, fn = .ok v ∧
        (swrRun cfg ck fn now nowW st).final.writes =
          [(resolveKey ck, cfg.serialize v),
           (resolveKey ck ++ "_time", toString nowW)]) ∧
    ((swrRun cfg ck fn now nowW st).final.events.any Event.isHit &&
      (swrRun cfg ck fn now nowW st).final.events.any Event.isMiss) = false := by
  cases hexp : ageGt (Option.map (fun t => now - t)
      (jsNumber (getStore st (resolveKey ck ++ "_time")))) cfg.maxTimeToLive <;>
  cases htr : truthy (cfg.deserialize (getStore st (resolveKey ck))) <;>
  cases hge : ageGe (Option.map (fun t => now - t)
      (jsNumber (getStore st (resolveKey ck ++ "_time")))) cfg.minTimeToStale <;>
  cases fn <;>
  simp [swrRun, swrGet, mkState, emit, flush, revalidateStart,
        revalidateFinish, Event.isHit, Event.isMiss, truthy_vNull, hexp, htr, hge]
